import Mathlib

/-
  Verification development for the electron-json-settings-store engine
  (main-process class ElectronJSONSettingsStoreMain, file src/main.ts).

  The embedding models JavaScript reference semantics explicitly: settings
  objects live in a small heap indexed by Nat references, because the source
  assigns objects by reference (this.cachedSettings = this._defaults) and
  mutates them in place (this.cachedSettings[key] = value).

  The compiled fastest-validator checker is an external library value; it is
  carried as a function parameter (field check) supplied at construction,
  exactly as the source stores the compiled checker in this._check.
-/

namespace EJSS

/-- Dynamically typed scalar settings values (the store holds flat
key to scalar maps); undef models the JavaScript undefined sentinel. -/
inductive JSValue where
  | undef : JSValue
  | num : Int → JSValue
  | bool : Bool → JSValue
  | str : String → JSValue
deriving DecidableEq

/-- A JavaScript object with scalar properties, as an association list
in property insertion order. -/
abbrev Obj := List (String × JSValue)

/-- Property lookup, first occurrence. -/
def objLookup : Obj → String → Option JSValue
  | [], _ => none
  | (k', v') :: rest, k => if k' = k then some v' else objLookup rest k

/-- Object.prototype.hasOwnProperty.call(o, k). -/
def objHas (o : Obj) (k : String) : Bool := (objLookup o k).isSome

/-- Property read o[k]; yields undefined when the property is absent. -/
def objIndex (o : Obj) (k : String) : JSValue := (objLookup o k).getD JSValue.undef

/-- Property write o[k] = v: replaces in place when present, appends when absent. -/
def objSet : Obj → String → JSValue → Obj
  | [], k, v => [(k, v)]
  | (k', v') :: rest, k, v => if k' = k then (k', v) :: rest else (k', v') :: objSet rest k v

/-- Property removal, the delete operator. -/
def objDelete : Obj → String → Obj
  | [], _ => []
  | (k', v') :: rest, k => if k' = k then rest else (k', v') :: objDelete rest k

/-- deepEqual from src/main.ts: same number of keys and, for every key of x,
equal values (values here are scalars, where deepEqual is strict equality). -/
def deepEqual (x y : Obj) : Bool :=
  (x.length == y.length) && x.all fun p => objIndex x p.1 == objIndex y p.1

/-- One validation error produced by the compiled checker: a field name and a
human readable message. -/
structure VError where
  field : String
  message : String
deriving DecidableEq

/-- The errors member of ElectronJSONSettingsStoreResult:
false, a single string, or a list of strings. -/
inductive ErrInfo where
  | noErr : ErrInfo
  | msg : String → ErrInfo
  | msgs : List String → ErrInfo
deriving DecidableEq

/-- The ElectronJSONSettingsStoreResult object. -/
structure EJSResult where
  status : Bool
  default : JSValue
  errors : ErrInfo
deriving DecidableEq

/-- The class options that affect the modelled data path. -/
structure MainOptions where
  validate : Bool
  validateFile : Bool
  defaultOnFailValidation : Bool
deriving DecidableEq

/-- State of one ElectronJSONSettingsStoreMain instance.  heap together with
cacheRef and defaultsRef models JavaScript object references: cachedSettings
and the defaults table are heap cells, since the source aliases and mutates
them in place.  notifyCount counts calls of the IPC change fan-out
(sendIPCUpdateSettings), physicalWrites counts started physical file writes,
pending holds the in-flight asynchronous write (argument reference and the
string content serialized at write start), fileContent is the backing file. -/
structure MainStore where
  heap : Nat → Obj
  nextRef : Nat
  cacheRef : Nat
  defaultsRef : Nat
  schema : Obj
  check : Obj → Option (List VError)
  options : MainOptions
  hasInit : Bool
  notifyCount : Nat
  isWritingFlag : Bool
  writeAgainFlag : Bool
  pending : Option (Nat × Obj)
  fileContent : Option Obj
  physicalWrites : Nat

/-- The cachedSettings object currently referenced by the instance. -/
def cachedSettings (s : MainStore) : Obj := s.heap s.cacheRef

/-- The defaults object (this._defaults) currently referenced. -/
def defaultsTable (s : MainStore) : Obj := s.heap s.defaultsRef

/-- The getDefaults getter: returns this._defaults by reference. -/
def getDefaults (s : MainStore) : Obj := defaultsTable s

/-- Heap update at one reference. -/
def heapSet (h : Nat → Obj) (r : Nat) (o : Obj) : Nat → Obj :=
  fun x => if x = r then o else h x

/-- Allocation of a fresh object (a new object literal or JSON.parse result). -/
def alloc (s : MainStore) (o : Obj) : MainStore × Nat :=
  ({ s with heap := heapSet s.heap s.nextRef o, nextRef := s.nextRef + 1 }, s.nextRef)

/-- sendIPCUpdateSettings: pushes the cache snapshot to every registered
renderer listener; modelled by counting fan-outs. -/
def sendIPCUpdateSettings (s : MainStore) : MainStore :=
  { s with notifyCount := s.notifyCount + 1 }

/-- setCachedSettings from src/main.ts: assigns the given object reference to
this.cachedSettings and fans out, unless deepEqual says content is unchanged. -/
def setCachedSettings (s : MainStore) (ref : Nat) : MainStore :=
  if deepEqual (s.heap ref) (cachedSettings s) then s
  else sendIPCUpdateSettings { s with cacheRef := ref }

/-- setCachedSettingsKey from src/main.ts: in-place property write on the
cachedSettings object plus fan-out, unless the strict equality check says the
value is unchanged. -/
def setCachedSettingsKey (s : MainStore) (k : String) (v : JSValue) : MainStore :=
  if objIndex (cachedSettings s) k = v then s
  else sendIPCUpdateSettings
    { s with heap := heapSet s.heap s.cacheRef (objSet (cachedSettings s) k v) }

/-- Error message thrown by operations guarded by the initialization flag. -/
def initErrorMsg : String :=
  "Init the module first (method init). If you are using a async operation please wait until the init promise is resolved"

/-- Error message thrown on an empty key argument. -/
def keyErrorMsg : String := "Enter a valid key name"

/-- getDefault(key): guarded by initialization and key validity; returns the
schema default when the key is in the defaults table, else undefined. -/
def getDefault (s : MainStore) (k : String) : Except String JSValue :=
  if ! s.hasInit then .error initErrorMsg
  else if k.length = 0 then .error keyErrorMsg
  else if objHas (defaultsTable s) k then .ok (objIndex s.schema k)
  else .ok JSValue.undef

/-- get(key): cached value if present; schema default if the key is declared
in the schema; otherwise undefined.  Guarded by initialization. -/
def get (s : MainStore) (k : String) : Except String JSValue :=
  if ! s.hasInit then .error initErrorMsg
  else if k.length = 0 then .error keyErrorMsg
  else if ! objHas (cachedSettings s) k then
    if objHas s.schema k then .ok (objIndex s.schema k)
    else .ok JSValue.undef
  else .ok (objIndex (cachedSettings s) k)

/-- The getAll getter, guarded by initialization. -/
def getAll (s : MainStore) : Except String Obj :=
  if ! s.hasInit then .error initErrorMsg else .ok (cachedSettings s)

/-- has(key): membership in the cachedSettings object only. -/
def has (s : MainStore) (k : String) : Except String Bool :=
  if ! s.hasInit then .error initErrorMsg
  else if k.length = 0 then .error keyErrorMsg
  else .ok (objHas (cachedSettings s) k)

/-- unset(key): removes the key from cachedSettings in place.  The source has
no initialization guard here and performs no fan-out. -/
def unset (s : MainStore) (k : String) : Except String (MainStore × Bool) :=
  if k.length = 0 then .error keyErrorMsg
  else if ! objHas (cachedSettings s) k then .ok (s, false)
  else .ok ({ s with heap := heapSet s.heap s.cacheRef (objDelete (cachedSettings s) k) }, true)

/-- reset(): setCachedSettings(this._defaults) — assigns the defaults object
by reference.  No initialization guard in the source. -/
def reset (s : MainStore) : MainStore := setCachedSettings s s.defaultsRef

/-- validate(key, value): runs the compiled checker on the single-property
object and builds the result, reading the default via getDefault. -/
def validate (s : MainStore) (k : String) (v : JSValue) : Except String EJSResult :=
  if k.length = 0 then .error keyErrorMsg
  else
    match s.check [(k, v)], getDefault s k with
    | none, .error e => .error e
    | none, .ok d => .ok ⟨true, d, .noErr⟩
    | some _, .error e => .error e
    | some errs, .ok d => .ok ⟨false, d, .msgs (errs.map VError.message)⟩

/-- The private helper named with an underscore in src/main.ts that performs
one keyed set against the cache: key absent from cache falls back to the
defaults table entry; otherwise the value is validated when the validate
option is on, with the default applied on failure when the
defaultOnFailValidation option is on. -/
def setUnchecked (s : MainStore) (k : String) (v : JSValue) :
    Except String (MainStore × EJSResult) :=
  if ! objHas (cachedSettings s) k then
    if objHas (defaultsTable s) k then
      let s1 := setCachedSettingsKey s k (objIndex (defaultsTable s) k)
      match getDefault s1 k with
      | .error e => .error e
      | .ok d => .ok (s1, ⟨true, d, .noErr⟩)
    else .ok (s, ⟨false, JSValue.undef, .msg "Key not found in cached settings"⟩)
  else if ! s.options.validate then
    let s1 := setCachedSettingsKey s k v
    match getDefault s1 k with
    | .error e => .error e
    | .ok d => .ok (s1, ⟨true, d, .noErr⟩)
  else
    match validate s k v with
    | .error e => .error e
    | .ok vr =>
      if vr.status then .ok (setCachedSettingsKey s k v, vr)
      else if s.options.defaultOnFailValidation then
        let s1 := setCachedSettingsKey s k (objIndex (defaultsTable s) k)
        match getDefault s1 k with
        | .error e => .error e
        | .ok d => .ok (s1, ⟨true, d, .msg "Default setting was applied"⟩)
      else .ok (s, vr)

/-- set(key, value), single-key form: precondition guards (initialization,
undefined value, empty key) then the private keyed set. -/
def set (s : MainStore) (k : String) (v : JSValue) :
    Except String (MainStore × EJSResult) :=
  if ! s.hasInit then .error initErrorMsg
  else if v = JSValue.undef then .error "You need to define a object"
  else if k.length = 0 then .error keyErrorMsg
  else setUnchecked s k v

/-- setAll(data): validates the whole object when the validate option is on;
on success assigns the freshly allocated data object by reference, on failure
either assigns the defaults object or throws. -/
def setAll (s : MainStore) (data : Obj) : Except String MainStore :=
  if ! s.hasInit then .error initErrorMsg
  else if ! s.options.validate then
    let p := alloc s data
    .ok (setCachedSettings p.1 p.2)
  else
    match s.check data with
    | none =>
      let p := alloc s data
      .ok (setCachedSettings p.1 p.2)
    | some errs =>
      if s.options.defaultOnFailValidation then .ok (setCachedSettings s s.defaultsRef)
      else .error ("Set All validation fail: " ++ ((errs.map VError.message).headD ""))

/-- The asynchronous writeJSONFile up to its await point: an early return that
only sets the write-again flag when a write is in flight, else it marks the
write in flight, serializes the referenced data object, and starts the
physical write. -/
def writeJSONFileStart (s : MainStore) (dataRef : Nat) : MainStore :=
  if s.isWritingFlag then { s with writeAgainFlag := true }
  else
    { s with isWritingFlag := true,
             pending := some (dataRef, s.heap dataRef),
             physicalWrites := s.physicalWrites + 1 }

/-- The asynchronous writeJSONFile after its await resolves successfully: the
file now holds the serialized snapshot, the in-flight flag is cleared, and if
the write-again flag was set meanwhile the call recurses with the same data
reference it was originally given. -/
def writeJSONFileComplete (s : MainStore) : MainStore :=
  match s.pending with
  | none => s
  | some pr =>
    let s1 := { s with fileContent := some pr.2, pending := none, isWritingFlag := false }
    if s1.writeAgainFlag then writeJSONFileStart { s1 with writeAgainFlag := false } pr.1
    else s1

/-- The asynchronous writeJSONFile when its await rejects with an I/O error:
every statement after the await is skipped, so the in-flight flag is NOT
cleared; the public write catches the rejection and returns the error text. -/
def writeJSONFileFail (s : MainStore) : MainStore :=
  match s.pending with
  | none => s
  | some _ => { s with pending := none }

/-- write(): starts an asynchronous write of this.cachedSettings by reference. -/
def writeStart (s : MainStore) : MainStore := writeJSONFileStart s s.cacheRef

/-- One successful synchronous physical write inside writeJSONFileSync: the
flag is raised and lowered around fs.writeFileSync. -/
def physWriteSync (s : MainStore) : MainStore :=
  { s with fileContent := some (cachedSettings s),
           physicalWrites := s.physicalWrites + 1 }

/-- writeJSONFileSync on the success path: early return setting the
write-again flag when a write is in flight; otherwise one physical write,
followed by one more when the write-again flag was set. -/
def writeJSONFileSync (s : MainStore) : MainStore :=
  if s.isWritingFlag then { s with writeAgainFlag := true }
  else
    let s1 := physWriteSync s
    if s1.writeAgainFlag then physWriteSync { s1 with writeAgainFlag := false } else s1

/-- writeSync() on the success path: no initialization guard in the source. -/
def writeSync (s : MainStore) : MainStore × Bool :=
  (writeJSONFileSync s, true)

/-- validateSettingsSync used at load time: on failure with the
defaultOnFailValidation option, each invalid field of the cachedSettings
object is overwritten in place with its schema default (no fan-out) and the
repaired cache is re-persisted; otherwise initialization aborts. -/
def validateSettingsSyncStep (s : MainStore) : Except String MainStore :=
  match s.check (cachedSettings s) with
  | none => .ok s
  | some errs =>
    if s.options.defaultOnFailValidation then
      let repaired := errs.foldl (fun o e => objSet o e.field (objIndex s.schema e.field))
        (cachedSettings s)
      .ok (writeJSONFileSync { s with heap := heapSet s.heap s.cacheRef repaired })
    else .error ("Initial settings validation fail: " ++ ((errs.map VError.message).headD ""))

/-- fileChanged, the watcher reconciliation body, parameterized by the parse
outcome of the re-read backing file: a parse error returns; a parsed object is
adopted by reference through setCachedSettings when the validateFile option is
off or validation passes; on validation failure with the
defaultOnFailValidation option, each invalid field of the cachedSettings
object is overwritten in place with its schema default (no fan-out) and the
repaired cache is re-persisted; otherwise the invalid content is ignored. -/
def fileChanged (s : MainStore) (parsed : Option Obj) : MainStore :=
  match parsed with
  | none => s
  | some o =>
    if ! s.options.validateFile then
      let p := alloc s o
      setCachedSettings p.1 p.2
    else
      match s.check o with
      | none =>
        let p := alloc s o
        setCachedSettings p.1 p.2
      | some errs =>
        if s.options.defaultOnFailValidation then
          let repaired := errs.foldl (fun o2 e => objSet o2 e.field (objIndex s.schema e.field))
            (cachedSettings s)
          writeJSONFileSync { s with heap := heapSet s.heap s.cacheRef repaired }
        else s

/-- initSync, parameterized by the parse outcome of the backing file (some for
a parsed object, none for a parse error): a parse error writes the defaults as
the new baseline; a parsed object is adopted by reference and, when the
validateFile option is on, validated with in-place repair. -/
def initSync (s : MainStore) (parsed : Option Obj) : Except String MainStore :=
  match parsed with
  | none =>
    let s1 := setCachedSettings s s.defaultsRef
    let s2 := writeJSONFileSync s1
    .ok { s2 with hasInit := true }
  | some o =>
    let p := alloc s o
    let s2 := setCachedSettings p.1 p.2
    if s2.options.validateFile then
      match validateSettingsSyncStep s2 with
      | .error e => .error e
      | .ok s3 => .ok { s3 with hasInit := true }
    else .ok { s2 with hasInit := true }

/-- The constructor: the defaults object is derived from the schema into a
fresh heap cell (reference 0), cachedSettings starts as a fresh empty object
(reference 1), and the compiled checker is stored. -/
def mkStore (schema : Obj) (check : Obj → Option (List VError)) (opts : MainOptions) :
    MainStore where
  heap := fun r => if r = 0 then schema else []
  nextRef := 2
  cacheRef := 1
  defaultsRef := 0
  schema := schema
  check := check
  options := opts
  hasInit := false
  notifyCount := 0
  isWritingFlag := false
  writeAgainFlag := false
  pending := none
  fileContent := none
  physicalWrites := 0

/-- Debounce delay of the file watcher, the setTimeout constant in watchFile. -/
def watchDebounceDelay : Nat := 1000

/-- Quiescence window after an own write, the hrtime constant in watchFile. -/
def selfWriteQuiescence : Nat := 10000000000

/-- State of the armed file watcher: the fsWait closure variable as the
expiry instant of the pending single-shot timer, the last own-write
timestamp, the write-in-flight flag, and a count of reconciliation runs
(executions of the fileChanged handler). -/
structure WatchState where
  fsWait : Option Nat
  lastWriteHrtime : Nat
  isWritingFlag : Bool
  reconcileCount : Nat
deriving DecidableEq

/-- The watcher callback on one change event at instant t: events are dropped
while the timer is pending or a save is in flight or within the quiescence
window after an own write; otherwise the single-shot timer is armed. -/
def onChangeEvent (s : WatchState) (t : Nat) : WatchState :=
  if s.fsWait.isSome || s.isWritingFlag then s
  else if t - s.lastWriteHrtime < selfWriteQuiescence then s
  else { s with fsWait := some (t + watchDebounceDelay) }

/-- Timer expiry: when the pending timer is due at instant t, fsWait is
cleared and fileChanged runs one reconciliation. -/
def fireTimerIfDue (s : WatchState) (t : Nat) : WatchState :=
  match s.fsWait with
  | some expiry =>
    if expiry ≤ t then { s with fsWait := none, reconcileCount := s.reconcileCount + 1 }
    else s
  | none => s

/-- Event-loop step: any due timer fires before the change event at t is
handled. -/
def watchStep (s : WatchState) (t : Nat) : WatchState := onChangeEvent (fireTimerIfDue s t) t

/-
  Concrete instance used by counterexamples and witnesses: the schema of the
  README and sample app restricted to its numeric field,
  size with default 25, integer, min 10, max 40.
-/

/-- The compiled fastest-validator checker for the one-field schema
size : number, integer, min 10, max 40, default 25. -/
def sizeCheck : Obj → Option (List VError) :=
  fun o =>
    match objLookup o "size" with
    | some (JSValue.num n) =>
      if 10 ≤ n && n ≤ 40 then none
      else some [⟨"size", "The size field must be less than or equal to 40."⟩]
    | some _ => some [⟨"size", "The size field must be a number."⟩]
    | none => some [⟨"size", "The size field is required."⟩]

/-- Schema defaults map of the concrete instance. -/
def schema1 : Obj := [("size", JSValue.num 25)]

/-- Options of the concrete instance: all validation options on. -/
def opts1 : MainOptions := ⟨true, true, true⟩

/-- The concrete instance right after construction, before initialization. -/
def store0 : MainStore := mkStore schema1 sizeCheck opts1

/-- Backing file content used to initialize the concrete instance. -/
def fileObj : Obj := [("size", JSValue.num 20)]

/-- The concrete instance after a successful initSync against a backing file
holding size 20. -/
def store1 : MainStore :=
  match initSync store0 (some fileObj) with
  | .ok s => s
  | .error _ => store0

/-- The concrete instance with an asynchronous write of its cachedSettings
reference in flight. -/
def wstore1 : MainStore := writeJSONFileStart store1 store1.cacheRef

/-- The concrete instance after the in-flight write failed with an I/O error. -/
def wstoreFailed : MainStore := writeJSONFileFail wstore1

/-- Trace for the stale-snapshot scenario: a reset while a write of the old
cache object is in flight, then a second write request, then completion. -/
def cexW1 : MainStore := reset wstore1

/-- Second write request issued during the in-flight write. -/
def cexW2 : MainStore := writeJSONFileStart cexW1 cexW1.cacheRef

/-- Completion of the in-flight write, which re-issues the follow-up write. -/
def cexW3 : MainStore := writeJSONFileComplete cexW2

/-- A store with a write in flight and the write-again flag already set,
used to exercise the follow-up path with in-place mutations. -/
def cexA : MainStore := writeJSONFileStart wstore1 wstore1.cacheRef

/-- Watcher state after a first qualifying change event at instant 10^10. -/
def wEv1 : WatchState := watchStep ⟨none, 0, false, 0⟩ 10000000000

/-- Watcher state after a second qualifying change event 500 later, inside
the pending debounce window. -/
def wEv2 : WatchState := watchStep wEv1 10000000500

/-
  Helper lemmas about the object operations and the internal mutators.
-/

@[simp]
theorem heapSet_self (h : Nat → Obj) (r : Nat) (o : Obj) : heapSet h r o r = o := by
  simp [heapSet]

theorem objLookup_objSet_self (o : Obj) (k : String) (v : JSValue) :
    objLookup (objSet o k v) k = some v := by
  induction o with
  | nil => simp [objSet, objLookup]
  | cons p rest ih =>
    obtain ⟨k', v'⟩ := p
    by_cases h : k' = k
    · simp [objSet, h, objLookup]
    · simp [objSet, h, objLookup, ih]

theorem objLookup_eq_some_of_objIndex (o : Obj) (k : String) (v : JSValue)
    (h : objIndex o k = v) (hv : v ≠ JSValue.undef) : objLookup o k = some v := by
  unfold objIndex at h
  cases hl : objLookup o k with
  | none => rw [hl] at h; exact absurd h.symm hv
  | some w => rw [hl] at h; simp at h; rw [h]

theorem objIndex_objSet_self (o : Obj) (k : String) (v : JSValue) :
    objIndex (objSet o k v) k = v := by
  simp [objIndex, objLookup_objSet_self]

@[simp]
theorem sCSK_hasInit (s : MainStore) (k : String) (v : JSValue) :
    (setCachedSettingsKey s k v).hasInit = s.hasInit := by
  unfold setCachedSettingsKey sendIPCUpdateSettings; split <;> rfl

@[simp]
theorem sCSK_schema (s : MainStore) (k : String) (v : JSValue) :
    (setCachedSettingsKey s k v).schema = s.schema := by
  unfold setCachedSettingsKey sendIPCUpdateSettings; split <;> rfl

@[simp]
theorem sCSK_options (s : MainStore) (k : String) (v : JSValue) :
    (setCachedSettingsKey s k v).options = s.options := by
  unfold setCachedSettingsKey sendIPCUpdateSettings; split <;> rfl

@[simp]
theorem sCSK_cacheRef (s : MainStore) (k : String) (v : JSValue) :
    (setCachedSettingsKey s k v).cacheRef = s.cacheRef := by
  unfold setCachedSettingsKey sendIPCUpdateSettings; split <;> rfl

@[simp]
theorem sCSK_pending (s : MainStore) (k : String) (v : JSValue) :
    (setCachedSettingsKey s k v).pending = s.pending := by
  unfold setCachedSettingsKey sendIPCUpdateSettings; split <;> rfl

@[simp]
theorem sCSK_writeAgainFlag (s : MainStore) (k : String) (v : JSValue) :
    (setCachedSettingsKey s k v).writeAgainFlag = s.writeAgainFlag := by
  unfold setCachedSettingsKey sendIPCUpdateSettings; split <;> rfl

@[simp]
theorem sCSK_isWritingFlag (s : MainStore) (k : String) (v : JSValue) :
    (setCachedSettingsKey s k v).isWritingFlag = s.isWritingFlag := by
  unfold setCachedSettingsKey sendIPCUpdateSettings; split <;> rfl

theorem sCSK_cachedSettings (s : MainStore) (k : String) (v : JSValue) :
    cachedSettings (setCachedSettingsKey s k v) =
      if objIndex (cachedSettings s) k = v then cachedSettings s
      else objSet (cachedSettings s) k v := by
  unfold setCachedSettingsKey sendIPCUpdateSettings cachedSettings
  split <;> simp [heapSet]

theorem sCSK_notifyCount (s : MainStore) (k : String) (v : JSValue) :
    (setCachedSettingsKey s k v).notifyCount =
      if objIndex (cachedSettings s) k = v then s.notifyCount else s.notifyCount + 1 := by
  unfold setCachedSettingsKey sendIPCUpdateSettings; split <;> simp

theorem objIndex_sCSK (s : MainStore) (k : String) (v : JSValue) :
    objIndex (cachedSettings (setCachedSettingsKey s k v)) k = v := by
  rw [sCSK_cachedSettings]
  split
  · assumption
  · exact objIndex_objSet_self ..

theorem objLookup_sCSK (s : MainStore) (k : String) (v : JSValue)
    (hv : v ≠ JSValue.undef) :
    objLookup (cachedSettings (setCachedSettingsKey s k v)) k = some v := by
  rw [sCSK_cachedSettings]
  split
  · exact objLookup_eq_some_of_objIndex _ _ _ (by assumption) hv
  · exact objLookup_objSet_self ..

theorem getDefault_isOk (s : MainStore) (k : String)
    (hInit : s.hasInit = true) (hk : k.length ≠ 0) :
    getDefault s k =
      .ok (if objHas (defaultsTable s) k then objIndex s.schema k else JSValue.undef) := by
  unfold getDefault
  simp [hInit, hk]
  split <;> simp

theorem foldlStartInFlight (rs : List Nat) (s : MainStore) (hW : s.isWritingFlag = true) :
    (rs.foldl writeJSONFileStart s).physicalWrites = s.physicalWrites ∧
    (rs.foldl writeJSONFileStart s).pending = s.pending ∧
    (rs.foldl writeJSONFileStart s).fileContent = s.fileContent ∧
    (rs.foldl writeJSONFileStart s).isWritingFlag = true ∧
    (rs.foldl writeJSONFileStart s).writeAgainFlag = (s.writeAgainFlag || !rs.isEmpty) := by
  induction rs generalizing s with
  | nil => simp [hW]
  | cons r rs ih =>
    have hstep : writeJSONFileStart s r = { s with writeAgainFlag := true } := by
      unfold writeJSONFileStart
      simp [hW]
    rw [List.foldl_cons, hstep]
    have h := ih { s with writeAgainFlag := true } hW
    simpa using h

theorem completeAfterBurst (t : MainStore) (pr : Nat × Obj) (base : Nat)
    (hp1 : t.pending = some pr) (ha1 : t.writeAgainFlag = true)
    (hw1 : t.physicalWrites = base) :
    (writeJSONFileComplete t).physicalWrites = base + 1 := by
  unfold writeJSONFileComplete
  rw [hp1]
  unfold writeJSONFileStart
  simp [ha1, hw1]

theorem foldlSCSKPreserves (muts : List (String × JSValue)) (s : MainStore) :
    (muts.foldl (fun t kv => setCachedSettingsKey t kv.1 kv.2) s).pending = s.pending ∧
    (muts.foldl (fun t kv => setCachedSettingsKey t kv.1 kv.2) s).writeAgainFlag
      = s.writeAgainFlag ∧
    (muts.foldl (fun t kv => setCachedSettingsKey t kv.1 kv.2) s).cacheRef = s.cacheRef := by
  induction muts generalizing s with
  | nil => simp
  | cons m ms ih =>
    rw [List.foldl_cons]
    have h := ih (setCachedSettingsKey s m.1 m.2)
    simpa using h

theorem completeReissue (t : MainStore) (r : Nat) (c : Obj)
    (hp1 : t.pending = some (r, c)) (ha1 : t.writeAgainFlag = true) :
    (writeJSONFileComplete t).fileContent = some c ∧
    (writeJSONFileComplete t).pending = some (r, t.heap r) := by
  unfold writeJSONFileComplete
  rw [hp1]
  unfold writeJSONFileStart
  simp [ha1]

theorem writeJSONFileSync_notifyCount (t : MainStore) :
    (writeJSONFileSync t).notifyCount = t.notifyCount := by
  unfold writeJSONFileSync physWriteSync
  split
  · rfl
  · by_cases h : t.writeAgainFlag = true <;> simp [h]

theorem setCachedSettings_alloc_notifyCount (s : MainStore) (d : Obj)
    (hcn : s.cacheRef ≠ s.nextRef) :
    (setCachedSettings (alloc s d).1 (alloc s d).2).notifyCount =
      (if deepEqual d (cachedSettings s) then s.notifyCount else s.notifyCount + 1) := by
  unfold alloc setCachedSettings sendIPCUpdateSettings cachedSettings
  simp [heapSet, hcn]
  split <;> simp

/-
  Claim theorems.
-/

/-- C1: while a write is in flight, every further save request performs no
physical write, leaves the in-flight write and the file untouched, and only
sets the write-again flag; when the in-flight write completes, exactly one
follow-up write is started, so a burst of N requests (N at least 2) arriving
during one in-flight write causes strictly fewer physical writes than
requests. -/
theorem writeCoalescingBurst (s : MainStore) (rs : List Nat)
    (hW : s.isWritingFlag = true) (hp : s.pending.isSome = true) (h2 : 2 ≤ rs.length) :
    (rs.foldl writeJSONFileStart s).physicalWrites = s.physicalWrites ∧
    (rs.foldl writeJSONFileStart s).pending = s.pending ∧
    (rs.foldl writeJSONFileStart s).fileContent = s.fileContent ∧
    (rs.foldl writeJSONFileStart s).writeAgainFlag = true ∧
    (writeJSONFileComplete (rs.foldl writeJSONFileStart s)).physicalWrites
      = s.physicalWrites + 1 ∧
    (writeJSONFileComplete (rs.foldl writeJSONFileStart s)).physicalWrites
      - s.physicalWrites < rs.length := by
  obtain ⟨pr, hpe⟩ := Option.isSome_iff_exists.mp hp
  have hne : rs.isEmpty = false := by
    cases rs with
    | nil => simp at h2
    | cons a l => simp
  obtain ⟨h1, hpd, h3, h4, h5⟩ := foldlStartInFlight rs s hW
  have hA : (rs.foldl writeJSONFileStart s).writeAgainFlag = true := by
    rw [h5, hne]
    simp
  have hcomp := completeAfterBurst (rs.foldl writeJSONFileStart s) pr s.physicalWrites
    (hpd.trans hpe) hA h1
  refine ⟨h1, hpd, h3, hA, hcomp, ?_⟩
  rw [hcomp]
  omega

/-- C1 witness: a concrete in-flight write with a burst of three requests. -/
theorem writeCoalescingBurstWitness :
    wstore1.isWritingFlag = true ∧ wstore1.pending.isSome = true ∧
    2 ≤ ([0, 0, 0] : List Nat).length ∧
    ((([0, 0, 0] : List Nat).foldl writeJSONFileStart wstore1).physicalWrites
        = wstore1.physicalWrites ∧
      (([0, 0, 0] : List Nat).foldl writeJSONFileStart wstore1).pending = wstore1.pending ∧
      (([0, 0, 0] : List Nat).foldl writeJSONFileStart wstore1).fileContent
        = wstore1.fileContent ∧
      (([0, 0, 0] : List Nat).foldl writeJSONFileStart wstore1).writeAgainFlag = true ∧
      (writeJSONFileComplete (([0, 0, 0] : List Nat).foldl writeJSONFileStart wstore1)).physicalWrites
        = wstore1.physicalWrites + 1 ∧
      (writeJSONFileComplete (([0, 0, 0] : List Nat).foldl writeJSONFileStart wstore1)).physicalWrites
        - wstore1.physicalWrites < ([0, 0, 0] : List Nat).length) :=
  ⟨rfl, rfl, by decide, writeCoalescingBurst wstore1 [0, 0, 0] rfl rfl (by decide)⟩

/-- C2 counterexample: a write of the cache object holding size 20 is in
flight; reset replaces the cache reference by the defaults object holding
size 25 and a second write request sets the write-again flag; on completion
the follow-up write serializes the old object with size 20, not the
then-current cache snapshot with size 25. -/
theorem resetDuringWriteStaleSnapshot :
    cexW2.writeAgainFlag = true ∧
    cachedSettings cexW3 = [("size", JSValue.num 25)] ∧
    cexW3.pending = some (store1.cacheRef, [("size", JSValue.num 20)]) ∧
    ([("size", JSValue.num 20)] : Obj) ≠ [("size", JSValue.num 25)] := by
  refine ⟨rfl, rfl, rfl, by decide⟩

/-- C2 amended: the follow-up write re-issued after completion serializes, at
re-issue time, the object reference passed to the original call; hence every
in-place key mutation performed during the in-flight write is captured, and
when the cache reference still equals that original reference the follow-up
content is exactly the then-current cache. -/
theorem followupWriteSerializesOriginalRef (s : MainStore) (r : Nat) (c : Obj)
    (hpe : s.pending = some (r, c)) (hr : s.cacheRef = r) (hA : s.writeAgainFlag = true)
    (muts : List (String × JSValue)) :
    (writeJSONFileComplete
      (muts.foldl (fun t kv => setCachedSettingsKey t kv.1 kv.2) s)).fileContent = some c ∧
    (writeJSONFileComplete
      (muts.foldl (fun t kv => setCachedSettingsKey t kv.1 kv.2) s)).pending
      = some (r, cachedSettings (muts.foldl (fun t kv => setCachedSettingsKey t kv.1 kv.2) s)) := by
  obtain ⟨hpd, hag, hcr⟩ := foldlSCSKPreserves muts s
  obtain ⟨hf, hpn⟩ := completeReissue (muts.foldl (fun t kv => setCachedSettingsKey t kv.1 kv.2) s)
    r c (hpd.trans hpe) (hag.trans hA)
  refine ⟨hf, ?_⟩
  rw [hpn]
  unfold cachedSettings
  rw [hcr, hr]

/-- C2 amended witness: one in-place mutation during an in-flight write with
the write-again flag already set. -/
theorem followupWriteSerializesOriginalRefWitness :
    cexA.pending = some (2, [("size", JSValue.num 20)]) ∧
    cexA.cacheRef = 2 ∧ cexA.writeAgainFlag = true ∧
    ((writeJSONFileComplete
        (([("size", JSValue.num 33)] : List (String × JSValue)).foldl
          (fun t kv => setCachedSettingsKey t kv.1 kv.2) cexA)).fileContent
      = some [("size", JSValue.num 20)] ∧
     (writeJSONFileComplete
        (([("size", JSValue.num 33)] : List (String × JSValue)).foldl
          (fun t kv => setCachedSettingsKey t kv.1 kv.2) cexA)).pending
      = some (2, cachedSettings
          (([("size", JSValue.num 33)] : List (String × JSValue)).foldl
            (fun t kv => setCachedSettingsKey t kv.1 kv.2) cexA))) :=
  ⟨rfl, rfl, rfl,
    followupWriteSerializesOriginalRef cexA 2 [("size", JSValue.num 20)] rfl rfl rfl
      [("size", JSValue.num 33)]⟩

/-- C3 counterexample: on the initialized concrete store with validation and
default-on-failure on, setting size to the schema-invalid 55 returns status
true (with the default-applied message), not the status false the claim
states. -/
theorem defaultApplyStatusTrueCex :
    ∃ s' r, set store1 "size" (JSValue.num 55) = .ok (s', r) ∧ r.status = true ∧
      r.errors = .msg "Default setting was applied" :=
  ⟨_, _, rfl, rfl, rfl⟩

/-- C3 amended: for a cached key and a value failing validation, with
validation on: if default-on-failure is on, set stores the defaults-table
entry for the key and returns status true with the default-applied message;
if it is off, set leaves the store untouched and returns the validation
errors verbatim with status false. -/
theorem setInvalidValueBehavior (s : MainStore) (k : String) (v : JSValue)
    (hInit : s.hasInit = true) (hk : k.length ≠ 0) (hv : v ≠ JSValue.undef)
    (hmem : objHas (cachedSettings s) k = true)
    (hval : s.options.validate = true)
    (errs : List VError) (hbad : s.check [(k, v)] = some errs) :
    (s.options.defaultOnFailValidation = true →
      ∃ s' r, set s k v = .ok (s', r) ∧ r.status = true ∧
        r.errors = .msg "Default setting was applied" ∧
        objIndex (cachedSettings s') k = objIndex (defaultsTable s) k) ∧
    (s.options.defaultOnFailValidation = false →
      ∃ r, set s k v = .ok (s, r) ∧ r.status = false ∧
        r.errors = .msgs (errs.map VError.message)) := by
  constructor
  · intro hd
    have hset : set s k v = .ok (setCachedSettingsKey s k (objIndex (defaultsTable s) k),
        ⟨true,
          if objHas (defaultsTable (setCachedSettingsKey s k (objIndex (defaultsTable s) k))) k
          then objIndex s.schema k else JSValue.undef,
          .msg "Default setting was applied"⟩) := by
      unfold set setUnchecked validate
      simp [hInit, hk, hv, hmem, hval, hbad, hd, getDefault_isOk]
    exact ⟨_, _, hset, rfl, rfl, objIndex_sCSK ..⟩
  · intro hd
    have hset : set s k v = .ok (s,
        ⟨false, if objHas (defaultsTable s) k then objIndex s.schema k else JSValue.undef,
          .msgs (errs.map VError.message)⟩) := by
      unfold set setUnchecked validate
      simp [hInit, hk, hv, hmem, hval, hbad, hd, getDefault_isOk]
    exact ⟨_, hset, rfl, rfl⟩

/-- C3 amended witness: the concrete store with size 20 cached and the
schema-invalid value 55. -/
theorem setInvalidValueBehaviorWitness :
    store1.hasInit = true ∧ ("size" : String).length ≠ 0 ∧
    JSValue.num 55 ≠ JSValue.undef ∧
    objHas (cachedSettings store1) "size" = true ∧
    store1.options.validate = true ∧
    store1.check [("size", JSValue.num 55)]
      = some [⟨"size", "The size field must be less than or equal to 40."⟩] ∧
    ((store1.options.defaultOnFailValidation = true →
        ∃ s' r, set store1 "size" (JSValue.num 55) = .ok (s', r) ∧ r.status = true ∧
          r.errors = .msg "Default setting was applied" ∧
          objIndex (cachedSettings s') "size" = objIndex (defaultsTable store1) "size") ∧
      (store1.options.defaultOnFailValidation = false →
        ∃ r, set store1 "size" (JSValue.num 55) = .ok (store1, r) ∧ r.status = false ∧
          r.errors = .msgs
            (([⟨"size", "The size field must be less than or equal to 40."⟩] :
              List VError).map VError.message))) :=
  ⟨rfl, by decide, by decide, rfl, rfl, rfl,
    setInvalidValueBehavior store1 "size" (JSValue.num 55) rfl (by decide) (by decide) rfl rfl
      [⟨"size", "The size field must be less than or equal to 40."⟩] rfl⟩

/-- C4 counterexample: after unset removes size from the cache of the
initialized store, setting size to the schema-valid 30 stores the schema
default 25 instead, with status true, so the subsequent get returns 25 and
not 30. -/
theorem setAbsentKeyIgnoresValueCex :
    ∃ s2, unset store1 "size" = .ok (s2, true) ∧
      ∃ s3 r, set s2 "size" (JSValue.num 30) = .ok (s3, r) ∧
        r.status = true ∧
        sizeCheck [("size", JSValue.num 30)] = none ∧
        get s3 "size" = .ok (JSValue.num 25) ∧
        JSValue.num 25 ≠ JSValue.num 30 :=
  ⟨_, rfl, _, _, rfl, rfl, rfl, rfl, by decide⟩

/-- C4 amended: on an initialized store, for every key PRESENT in the cache
and every value the compiled checker accepts, set stores the value with
status true and the following get returns exactly that value. -/
theorem setValidThenGetRoundTrip (s : MainStore) (k : String) (v : JSValue)
    (hInit : s.hasInit = true) (hk : k.length ≠ 0) (hv : v ≠ JSValue.undef)
    (hmem : objHas (cachedSettings s) k = true)
    (hval : s.options.validate = true) (hok : s.check [(k, v)] = none) :
    ∃ s' r, set s k v = .ok (s', r) ∧ r.status = true ∧ get s' k = .ok v := by
  have hset : set s k v = .ok (setCachedSettingsKey s k v,
      ⟨true, if objHas (defaultsTable s) k then objIndex s.schema k else JSValue.undef,
        .noErr⟩) := by
    unfold set setUnchecked validate
    rw [getDefault_isOk s k hInit hk]
    simp [hInit, hk, hv, hmem, hval, hok]
  refine ⟨_, _, hset, rfl, ?_⟩
  have hl := objLookup_sCSK s k v hv
  unfold get
  simp [sCSK_hasInit, hInit, hk, objHas, hl, objIndex]

/-- C4 amended witness: the cached key size set to the schema-valid 22. -/
theorem setValidThenGetRoundTripWitness :
    store1.hasInit = true ∧ ("size" : String).length ≠ 0 ∧
    JSValue.num 22 ≠ JSValue.undef ∧
    objHas (cachedSettings store1) "size" = true ∧
    store1.options.validate = true ∧
    store1.check [("size", JSValue.num 22)] = none ∧
    (∃ s' r, set store1 "size" (JSValue.num 22) = .ok (s', r) ∧ r.status = true ∧
      get s' "size" = .ok (JSValue.num 22)) :=
  ⟨rfl, by decide, by decide, rfl, rfl, rfl,
    setValidThenGetRoundTrip store1 "size" (JSValue.num 22) rfl (by decide) (by decide)
      rfl rfl rfl⟩

/-- C5 counterexample: unset removes the cached key size, a content change,
yet performs zero change-notification fan-outs, refuting the claim that every
content-changing mutation triggers exactly one fan-out. -/
theorem unsetNoFanoutCex :
    ∃ s', unset store1 "size" = .ok (s', true) ∧
      cachedSettings s' ≠ cachedSettings store1 ∧
      s'.notifyCount = store1.notifyCount := by
  refine ⟨_, rfl, ?_, rfl⟩
  decide

/-- C5 amended: the mutations routed through the equality-gated mutators —
set, setAll, reset, and watcher reconciliation adopting a parsed object —
fan out exactly once when the equality check detects a content change and
zero times otherwise; but unset mutates the cache content without any
fan-out, and the validation-repair paths of watcher reconciliation and of
load-time validation mutate the cache in place without any fan-out. -/
theorem changeGatedFanout (s : MainStore) (k : String) (v : JSValue) (d o : Obj)
    (errsO : List VError)
    (hInit : s.hasInit = true) (hk : k.length ≠ 0) (hv : v ≠ JSValue.undef)
    (hmem : objHas (cachedSettings s) k = true)
    (hval : s.options.validate = true) (hok : s.check [(k, v)] = none)
    (hcn : s.cacheRef ≠ s.nextRef) (hchkd : s.check d = none)
    (hvf : s.options.validateFile = true) (hchko : s.check o = some errsO)
    (hdef : s.options.defaultOnFailValidation = true) :
    (objIndex (cachedSettings s) k = v → ∃ r, set s k v = .ok (s, r)) ∧
    (objIndex (cachedSettings s) k ≠ v →
      ∃ s' r, set s k v = .ok (s', r) ∧ s'.notifyCount = s.notifyCount + 1) ∧
    (deepEqual (defaultsTable s) (cachedSettings s) = true → reset s = s) ∧
    (deepEqual (defaultsTable s) (cachedSettings s) = false →
      (reset s).notifyCount = s.notifyCount + 1) ∧
    (∃ s', unset s k = .ok (s', true) ∧ s'.notifyCount = s.notifyCount ∧
      cachedSettings s' = objDelete (cachedSettings s) k) ∧
    (∃ s', setAll s d = .ok s' ∧ s'.notifyCount =
      (if deepEqual d (cachedSettings s) then s.notifyCount else s.notifyCount + 1)) ∧
    ((fileChanged s (some d)).notifyCount =
      (if deepEqual d (cachedSettings s) then s.notifyCount else s.notifyCount + 1)) ∧
    ((fileChanged s (some o)).notifyCount = s.notifyCount) ∧
    (∀ errsC, s.check (cachedSettings s) = some errsC →
      ∃ s', validateSettingsSyncStep s = .ok s' ∧ s'.notifyCount = s.notifyCount) := by
  have hset : set s k v = .ok (setCachedSettingsKey s k v,
      ⟨true, if objHas (defaultsTable s) k then objIndex s.schema k else JSValue.undef,
        .noErr⟩) := by
    unfold set setUnchecked validate
    rw [getDefault_isOk s k hInit hk]
    simp [hInit, hk, hv, hmem, hval, hok]
  refine ⟨?_, ?_, ?_, ?_, ?_, ?_, ?_, ?_, ?_⟩
  · intro he
    refine ⟨⟨true, if objHas (defaultsTable s) k then objIndex s.schema k else JSValue.undef,
      .noErr⟩, ?_⟩
    rw [hset]
    unfold setCachedSettingsKey
    simp [he]
  · intro hne
    refine ⟨_, _, hset, ?_⟩
    rw [sCSK_notifyCount]
    simp [hne]
  · intro hde
    unfold reset setCachedSettings
    simp [defaultsTable] at hde
    simp [hde]
  · intro hde
    unfold reset setCachedSettings sendIPCUpdateSettings
    simp [defaultsTable] at hde
    simp [hde]
  · have h1 : unset s k = .ok
        ({ s with heap := heapSet s.heap s.cacheRef (objDelete (cachedSettings s) k) },
          true) := by
      unfold unset
      simp [hk, hmem]
    refine ⟨_, h1, rfl, ?_⟩
    simp [cachedSettings, heapSet]
  · have h6 : setAll s d = .ok (setCachedSettings (alloc s d).1 (alloc s d).2) := by
      unfold setAll
      simp [hInit, hval, hchkd]
    exact ⟨_, h6, setCachedSettings_alloc_notifyCount s d hcn⟩
  · have h7 : fileChanged s (some d) = setCachedSettings (alloc s d).1 (alloc s d).2 := by
      unfold fileChanged
      simp [hvf, hchkd]
    rw [h7]
    exact setCachedSettings_alloc_notifyCount s d hcn
  · have h8 : fileChanged s (some o) = writeJSONFileSync
        { s with heap :=
            (heapSet s.heap s.cacheRef
              (errsO.foldl (fun o2 e => objSet o2 e.field (objIndex s.schema e.field))
                (cachedSettings s))) } := by
      unfold fileChanged
      simp [hvf, hchko, hdef]
    rw [h8, writeJSONFileSync_notifyCount]
  · intro errsC hc
    have h9 : validateSettingsSyncStep s = .ok (writeJSONFileSync
        { s with heap :=
            (heapSet s.heap s.cacheRef
              (errsC.foldl (fun o2 e => objSet o2 e.field (objIndex s.schema e.field))
                (cachedSettings s))) }) := by
      unfold validateSettingsSyncStep
      rw [hc]
      simp [hdef]
    exact ⟨_, h9, writeJSONFileSync_notifyCount _⟩

/-- C5 amended witness: the cached key size with the schema-valid value 22,
the setAll and reconciliation object size 22 (valid), and the external file
content size 99 (invalid, exercising the repair path). -/
theorem changeGatedFanoutWitness :
    store1.hasInit = true ∧ ("size" : String).length ≠ 0 ∧
    JSValue.num 22 ≠ JSValue.undef ∧
    objHas (cachedSettings store1) "size" = true ∧
    store1.options.validate = true ∧
    store1.check [("size", JSValue.num 22)] = none ∧
    store1.cacheRef ≠ store1.nextRef ∧
    store1.check [("size", JSValue.num 22)] = none ∧
    store1.options.validateFile = true ∧
    store1.check [("size", JSValue.num 99)]
      = some [⟨"size", "The size field must be less than or equal to 40."⟩] ∧
    store1.options.defaultOnFailValidation = true ∧
    ((objIndex (cachedSettings store1) "size" = JSValue.num 22 →
        ∃ r, set store1 "size" (JSValue.num 22) = .ok (store1, r)) ∧
      (objIndex (cachedSettings store1) "size" ≠ JSValue.num 22 →
        ∃ s' r, set store1 "size" (JSValue.num 22) = .ok (s', r) ∧
          s'.notifyCount = store1.notifyCount + 1) ∧
      (deepEqual (defaultsTable store1) (cachedSettings store1) = true →
        reset store1 = store1) ∧
      (deepEqual (defaultsTable store1) (cachedSettings store1) = false →
        (reset store1).notifyCount = store1.notifyCount + 1) ∧
      (∃ s', unset store1 "size" = .ok (s', true) ∧ s'.notifyCount = store1.notifyCount ∧
        cachedSettings s' = objDelete (cachedSettings store1) "size") ∧
      (∃ s', setAll store1 [("size", JSValue.num 22)] = .ok s' ∧ s'.notifyCount =
        (if deepEqual [("size", JSValue.num 22)] (cachedSettings store1)
          then store1.notifyCount else store1.notifyCount + 1)) ∧
      ((fileChanged store1 (some [("size", JSValue.num 22)])).notifyCount =
        (if deepEqual [("size", JSValue.num 22)] (cachedSettings store1)
          then store1.notifyCount else store1.notifyCount + 1)) ∧
      ((fileChanged store1 (some [("size", JSValue.num 99)])).notifyCount
        = store1.notifyCount) ∧
      (∀ errsC, store1.check (cachedSettings store1) = some errsC →
        ∃ s', validateSettingsSyncStep store1 = .ok s' ∧
          s'.notifyCount = store1.notifyCount)) :=
  ⟨rfl, by decide, by decide, rfl, rfl, rfl, by decide, rfl, rfl, rfl, rfl,
    changeGatedFanout store1 "size" (JSValue.num 22) [("size", JSValue.num 22)]
      [("size", JSValue.num 99)]
      [⟨"size", "The size field must be less than or equal to 40."⟩]
      rfl (by decide) (by decide) rfl rfl rfl (by decide) rfl rfl rfl rfl⟩

/-- C6 counterexample: two qualifying external change events 500 apart; the
second event does not restart the pending debounce timer (the expiry stays at
the first event plus the delay), and reconciliation runs at that expiry even
though a further qualifying event arrived within the delay — refuting the
restart semantics the claim states. -/
theorem debounceNoRestartCex :
    wEv2.fsWait = some 10000001000 ∧
    wEv2.fsWait ≠ some (10000000500 + watchDebounceDelay) ∧
    (fireTimerIfDue wEv2 10000001000).reconcileCount = 1 := by
  refine ⟨rfl, ?_, rfl⟩
  decide

/-- C6 amended: the first qualifying event arms a single-shot timer expiring
a fixed delay later; further qualifying events while the timer is pending are
ignored rather than restarting it; at the expiry exactly one reconciliation
runs — in particular three events inside the window yield one reconciliation,
timed from the first event. -/
theorem watcherThrottleOneReconcile (s0 : WatchState) (t1 : Nat) (ts : List Nat)
    (h0 : s0.fsWait = none) (hw : s0.isWritingFlag = false)
    (hq : ¬ t1 - s0.lastWriteHrtime < selfWriteQuiescence)
    (hts : ∀ t ∈ ts, t < t1 + watchDebounceDelay) :
    (ts.foldl watchStep (watchStep s0 t1)).fsWait = some (t1 + watchDebounceDelay) ∧
    (ts.foldl watchStep (watchStep s0 t1)).reconcileCount = s0.reconcileCount ∧
    (fireTimerIfDue (ts.foldl watchStep (watchStep s0 t1))
      (t1 + watchDebounceDelay)).reconcileCount = s0.reconcileCount + 1 ∧
    (fireTimerIfDue (ts.foldl watchStep (watchStep s0 t1))
      (t1 + watchDebounceDelay)).fsWait = none := by
  have h1 : watchStep s0 t1 = { s0 with fsWait := some (t1 + watchDebounceDelay) } := by
    have hf : fireTimerIfDue s0 t1 = s0 := by
      unfold fireTimerIfDue
      rw [h0]
    unfold watchStep
    rw [hf]
    unfold onChangeEvent
    rw [h0]
    simp [hw, hq]
  have hfold : ∀ (l : List Nat) (u : WatchState),
      u.fsWait = some (t1 + watchDebounceDelay) →
      (∀ t ∈ l, t < t1 + watchDebounceDelay) →
      l.foldl watchStep u = u := by
    intro l
    induction l with
    | nil => intro u _ _; rfl
    | cons a as ih =>
      intro u hu hl
      have hnotdue : ¬ t1 + watchDebounceDelay ≤ a := by
        have := hl a (by simp)
        omega
      have hstep : watchStep u a = u := by
        unfold watchStep fireTimerIfDue onChangeEvent
        simp [hu, hnotdue]
      rw [List.foldl_cons, hstep]
      exact ih u hu fun t ht => hl t (by simp [ht])
  rw [h1, hfold ts { s0 with fsWait := some (t1 + watchDebounceDelay) } rfl hts]
  refine ⟨rfl, rfl, ?_, ?_⟩ <;>
    · unfold fireTimerIfDue
      simp

/-- C6 amended witness: three qualifying events inside one debounce window. -/
theorem watcherThrottleOneReconcileWitness :
    (⟨none, 0, false, 0⟩ : WatchState).fsWait = none ∧
    (⟨none, 0, false, 0⟩ : WatchState).isWritingFlag = false ∧
    (¬ (10000000000 : Nat) - (⟨none, 0, false, 0⟩ : WatchState).lastWriteHrtime
      < selfWriteQuiescence) ∧
    (∀ t ∈ ([10000000001, 10000000002] : List Nat), t < 10000000000 + watchDebounceDelay) ∧
    ((([10000000001, 10000000002] : List Nat).foldl watchStep
        (watchStep ⟨none, 0, false, 0⟩ 10000000000)).fsWait
        = some (10000000000 + watchDebounceDelay) ∧
      (([10000000001, 10000000002] : List Nat).foldl watchStep
        (watchStep ⟨none, 0, false, 0⟩ 10000000000)).reconcileCount
        = (⟨none, 0, false, 0⟩ : WatchState).reconcileCount ∧
      (fireTimerIfDue (([10000000001, 10000000002] : List Nat).foldl watchStep
        (watchStep ⟨none, 0, false, 0⟩ 10000000000))
        (10000000000 + watchDebounceDelay)).reconcileCount
        = (⟨none, 0, false, 0⟩ : WatchState).reconcileCount + 1 ∧
      (fireTimerIfDue (([10000000001, 10000000002] : List Nat).foldl watchStep
        (watchStep ⟨none, 0, false, 0⟩ 10000000000))
        (10000000000 + watchDebounceDelay)).fsWait = none) :=
  ⟨rfl, rfl, by decide, by decide,
    watcherThrottleOneReconcile ⟨none, 0, false, 0⟩ 10000000000 [10000000001, 10000000002]
      rfl rfl (by decide) (by decide)⟩

/-- C7: the defaults table of the concrete store is size 25 at construction,
but after reset (which aliases the cache reference to the defaults object) a
schema-valid set of size to 30 mutates the defaults table in place, so
getDefaults afterwards returns size 30 — the default table is not immutable. -/
theorem resetAliasingMutatesDefaults :
    getDefaults store1 = [("size", JSValue.num 25)] ∧
    (∃ s' r, set (reset store1) "size" (JSValue.num 30) = .ok (s', r) ∧
      getDefaults s' = [("size", JSValue.num 30)]) ∧
    ([("size", JSValue.num 30)] : Obj) ≠ [("size", JSValue.num 25)] := by
  refine ⟨rfl, ⟨_, _, rfl, rfl⟩, by decide⟩

/-- C8: after the in-flight asynchronous write fails with an I/O error, the
write-in-flight flag stays true forever: a subsequent write request starts no
physical write (it only sets the write-again flag) and even a completion step
is a no-op, so later saves are permanently coalesced away. -/
theorem failedWriteLeavesFlagSet :
    wstoreFailed.isWritingFlag = true ∧
    wstoreFailed.pending = none ∧
    (writeJSONFileStart wstoreFailed wstoreFailed.cacheRef).physicalWrites
      = wstoreFailed.physicalWrites ∧
    (writeJSONFileStart wstoreFailed wstoreFailed.cacheRef).pending = none ∧
    (writeJSONFileStart wstoreFailed wstoreFailed.cacheRef).writeAgainFlag = true ∧
    writeJSONFileComplete (writeJSONFileStart wstoreFailed wstoreFailed.cacheRef)
      = writeJSONFileStart wstoreFailed wstoreFailed.cacheRef :=
  ⟨rfl, rfl, rfl, rfl, rfl, rfl⟩

/-- C9: get returns the cached value when the key is cached; the schema
default when the key is absent from the cache but declared in the schema; the
undefined sentinel when the key is in neither; and the uninitialized error
when called before initialization completes. -/
theorem getResolutionOrder (s : MainStore) (k : String) (hk : k.length ≠ 0) :
    (s.hasInit = false → get s k = .error initErrorMsg) ∧
    (s.hasInit = true → objHas (cachedSettings s) k = true →
      get s k = .ok (objIndex (cachedSettings s) k)) ∧
    (s.hasInit = true → objHas (cachedSettings s) k = false → objHas s.schema k = true →
      get s k = .ok (objIndex s.schema k)) ∧
    (s.hasInit = true → objHas (cachedSettings s) k = false → objHas s.schema k = false →
      get s k = .ok JSValue.undef) := by
  unfold get
  refine ⟨fun h => by simp [h], fun h hm => by simp [h, hk, hm],
    fun h hm hs => by simp [h, hk, hm, hs], fun h hm hs => by simp [h, hk, hm, hs]⟩

/-- C9 witness: the concrete initialized store and the key size; the
cached-value branch is the one whose antecedents hold at this input. -/
theorem getResolutionOrderWitness :
    ("size" : String).length ≠ 0 ∧
    ((store1.hasInit = false → get store1 "size" = .error initErrorMsg) ∧
      (store1.hasInit = true → objHas (cachedSettings store1) "size" = true →
        get store1 "size" = .ok (objIndex (cachedSettings store1) "size")) ∧
      (store1.hasInit = true → objHas (cachedSettings store1) "size" = false →
        objHas store1.schema "size" = true →
        get store1 "size" = .ok (objIndex store1.schema "size")) ∧
      (store1.hasInit = true → objHas (cachedSettings store1) "size" = false →
        objHas store1.schema "size" = false →
        get store1 "size" = .ok JSValue.undef)) :=
  ⟨by decide, getResolutionOrder store1 "size" (by decide)⟩

/-- C10 counterexample: on the freshly constructed, uninitialized store,
unset returns normally instead of throwing, and writeSync silently performs a
physical write of the empty uninitialized cache — so not every data operation
throws before initialization. -/
theorem uninitOpsExecuteCex :
    store0.hasInit = false ∧
    unset store0 "size" = .ok (store0, false) ∧
    (writeSync store0).1.fileContent = some [] ∧
    (writeSync store0).1.physicalWrites = 1 ∧
    (writeStart store0).isWritingFlag = true ∧
    (writeStart store0).physicalWrites = 1 ∧
    (writeStart store0).pending = some (store0.cacheRef, []) ∧
    cachedSettings (reset store0) = defaultsTable store0 :=
  ⟨rfl, rfl, rfl, rfl, rfl, rfl, rfl, rfl⟩

/-- C10 amended: before initialization, get, getDefault, getAll, has, set and
setAll throw the uninitialized error synchronously, while unset, reset, write
and writeSync perform no initialization check and execute against the
uninitialized cache. -/
theorem initGuardCoverage (s : MainStore) (k : String) (v : JSValue) (d : Obj)
    (hInit : s.hasInit = false) (hk : k.length ≠ 0)
    (hw : s.isWritingFlag = false) (ha : s.writeAgainFlag = false) :
    get s k = .error initErrorMsg ∧
    getAll s = .error initErrorMsg ∧
    has s k = .error initErrorMsg ∧
    getDefault s k = .error initErrorMsg ∧
    set s k v = .error initErrorMsg ∧
    setAll s d = .error initErrorMsg ∧
    (∃ p, unset s k = .ok p) ∧
    (writeSync s).2 = true ∧
    (writeSync s).1.physicalWrites = s.physicalWrites + 1 ∧
    (writeStart s).physicalWrites = s.physicalWrites + 1 ∧
    (writeStart s).pending = some (s.cacheRef, cachedSettings s) ∧
    (deepEqual (defaultsTable s) (cachedSettings s) = false →
      cachedSettings (reset s) = defaultsTable s) := by
  refine ⟨?_, ?_, ?_, ?_, ?_, ?_, ?_, rfl, ?_, ?_, ?_, ?_⟩
  · unfold get
    simp [hInit]
  · unfold getAll
    simp [hInit]
  · unfold has
    simp [hInit]
  · unfold getDefault
    simp [hInit]
  · unfold set
    simp [hInit]
  · unfold setAll
    simp [hInit]
  · unfold unset
    simp [hk]
    by_cases hm : objHas (cachedSettings s) k = true
    · simp [hm]
    · simp [hm]
  · unfold writeSync writeJSONFileSync physWriteSync
    simp [hw, ha]
  · unfold writeStart writeJSONFileStart
    simp [hw]
  · unfold writeStart writeJSONFileStart cachedSettings
    simp [hw]
  · intro hde
    unfold reset setCachedSettings sendIPCUpdateSettings
    simp [defaultsTable, cachedSettings] at hde
    simp [hde, cachedSettings, defaultsTable]

/-- C10 amended witness: the freshly constructed store before initSync. -/
theorem initGuardCoverageWitness :
    store0.hasInit = false ∧ ("size" : String).length ≠ 0 ∧
    store0.isWritingFlag = false ∧ store0.writeAgainFlag = false ∧
    (get store0 "size" = .error initErrorMsg ∧
      getAll store0 = .error initErrorMsg ∧
      has store0 "size" = .error initErrorMsg ∧
      getDefault store0 "size" = .error initErrorMsg ∧
      set store0 "size" (JSValue.num 1) = .error initErrorMsg ∧
      setAll store0 [] = .error initErrorMsg ∧
      (∃ p, unset store0 "size" = .ok p) ∧
      (writeSync store0).2 = true ∧
      (writeSync store0).1.physicalWrites = store0.physicalWrites + 1 ∧
      (writeStart store0).physicalWrites = store0.physicalWrites + 1 ∧
      (writeStart store0).pending = some (store0.cacheRef, cachedSettings store0) ∧
      (deepEqual (defaultsTable store0) (cachedSettings store0) = false →
        cachedSettings (reset store0) = defaultsTable store0)) :=
  ⟨rfl, by decide, rfl, rfl,
    initGuardCoverage store0 "size" (JSValue.num 1) [] rfl (by decide) rfl rfl⟩

end EJSS
